import Mathlib

/-!
Verification development for the keybindllm utility: a shallow embedding of
its hotkey detection (`base_service.py`), ollama HTTP client, clipboard
replacement (`rephrase_service.py`) and startup sequence, with theorems
settling the specification claims.
-/

namespace KeybindLLM

/-- Keyboard keys as seen by the pynput listener.  Modifier keys
(`Key.ctrl_l`, `Key.ctrl_r`, `Key.alt_l`, `Key.alt_r`) are distinguished;
every other special key (no `char` attribute) is `special`; a character
key (`KeyCode`) carries its `char` field, which may be `None`. -/
inductive PKey where
  | ctrl_l
  | ctrl_r
  | alt_l
  | alt_r
  | special (name : String)
  | charKey (c : Option Char)
deriving DecidableEq

/-- Embedding of `BaseAIService.on_press` (base_service.py, lines 179-211).
The pressed key is added to the set; then, with the *updated* set, the code
checks that some ctrl variant and some alt variant are held and that the
pressed key is a character key whose `char` equals `str(self.keynum)`.
Returns the updated pressed-key set and whether a handler thread was
dispatched. -/
def on_press (pressed_keys : Finset PKey) (keynum : Int) (key : PKey) :
    Finset PKey × Bool :=
  if (PKey.ctrl_l ∈ insert key pressed_keys ∨ PKey.ctrl_r ∈ insert key pressed_keys) ∧
     (PKey.alt_l ∈ insert key pressed_keys ∨ PKey.alt_r ∈ insert key pressed_keys) then
    match key with
    | PKey.charKey (some c) =>
        if String.mk [c] = toString keynum then (insert key pressed_keys, true)
        else (insert key pressed_keys, false)
    | _ => (insert key pressed_keys, false)
  else
    (insert key pressed_keys, false)

/-- Embedding of `BaseAIService.on_release` (base_service.py, lines 213-218):
`self.pressed_keys.discard(key)`. -/
def on_release (pressed_keys : Finset PKey) (key : PKey) : Finset PKey :=
  pressed_keys.erase key

/-- The dispatch condition of `on_press`, flattened: a handler is started
exactly when a ctrl-class and an alt-class key are in the set after the
press is recorded and the pressed key is a character key whose character
equals the decimal string of the configured key number. -/
lemma on_press_dispatch_iff (pressed_keys : Finset PKey) (keynum : Int) (key : PKey) :
    (on_press pressed_keys keynum key).2 = true ↔
      ((PKey.ctrl_l ∈ insert key pressed_keys ∨ PKey.ctrl_r ∈ insert key pressed_keys) ∧
       (PKey.alt_l ∈ insert key pressed_keys ∨ PKey.alt_r ∈ insert key pressed_keys) ∧
       ∃ c, key = PKey.charKey (some c) ∧ String.mk [c] = toString keynum) := by
  unfold on_press
  split_ifs with hmods
  · cases key with
    | ctrl_l => simp [hmods.1, hmods.2]
    | ctrl_r => simp [hmods.1, hmods.2]
    | alt_l => simp [hmods.1, hmods.2]
    | alt_r => simp [hmods.1, hmods.2]
    | special name => simp [hmods.1, hmods.2]
    | charKey c =>
      cases c with
      | none => simp [hmods.1, hmods.2]
      | some ch =>
        by_cases hc : String.mk [ch] = toString keynum
        · simp_all
        · simp_all
  · constructor
    · intro h
      simp at h
    · rintro ⟨h1, h2, -⟩
      exact absurd ⟨h1, h2⟩ hmods

/-- `on_press` always records the pressed key in the set. -/
lemma on_press_fst (pressed_keys : Finset PKey) (keynum : Int) (key : PKey) :
    (on_press pressed_keys keynum key).1 = insert key pressed_keys := by
  unfold on_press
  split_ifs with hmods
  · cases key with
    | ctrl_l => rfl
    | ctrl_r => rfl
    | alt_l => rfl
    | alt_r => rfl
    | special name => rfl
    | charKey c =>
      cases c with
      | none => rfl
      | some ch =>
        by_cases hc : String.mk [ch] = toString keynum
        · simp [hc]
        · simp [hc]
  · rfl

/-- Python's `str.strip()`: drop whitespace from both ends.  Defined over
the character list so that it reduces in the kernel. -/
def pyStrip (s : String) : String :=
  String.mk (((s.data.dropWhile Char.isWhitespace).reverse.dropWhile
    Char.isWhitespace).reverse)

/-- Outcome of one HTTP request to the ollama chat endpoint, as the code
observes it: a transport error (`requests.exceptions.RequestException`),
or a response with a status code and, when the JSON body decodes and holds
a `message.content` field, that content string (`none` models a body from
which `result['message']['content']` cannot be extracted). -/
inductive HTTPOutcome where
  | transportError
  | response (status : Nat) (content : Option String)
deriving DecidableEq

/-- Embedding of `BaseAIService.send_to_ollama` (base_service.py, lines
124-158).  The request payload is built from the prompts; the response is
the oracle `resp`.  `response.raise_for_status()` raises (a
`RequestException`, caught and turned into `None`) exactly for status
codes 400-599; otherwise the content is extracted (a missing key raises
`KeyError`, caught and turned into `None`) and stripped. -/
def send_to_ollama (system_prompt user_input : String) (resp : HTTPOutcome) :
    Option String :=
  match system_prompt, user_input, resp with
  | _, _, HTTPOutcome.transportError => none
  | _, _, HTTPOutcome.response status content =>
    if 400 ≤ status ∧ status ≤ 599 then none
    else
      match content with
      | none => none
      | some c => some (pyStrip c)

/-- One observable effect on the desktop environment: a clipboard read
(`xclip -selection clipboard -o`), a clipboard write (`xclip -selection
clipboard` fed on stdin), or a simulated paste (`xdotool key ctrl+v`). -/
inductive SysEvent where
  | readClip (result : String)
  | writeClip (text : String)
  | paste
deriving DecidableEq

/-- Desktop state threaded through the clipboard operations: the current
clipboard content and the trace of effects performed so far. -/
structure SysState where
  clipboard : String
  events : List SysEvent
deriving DecidableEq

/-- Read the clipboard via xclip. -/
def xclipReadClipboard (s : SysState) : String × SysState :=
  (s.clipboard, { s with events := s.events ++ [SysEvent.readClip s.clipboard] })

/-- Write the clipboard via xclip. -/
def xclipWriteClipboard (text : String) (s : SysState) : SysState :=
  { clipboard := text, events := s.events ++ [SysEvent.writeClip text] }

/-- Simulate a ctrl+v paste via xdotool. -/
def xdotoolPaste (s : SysState) : SysState :=
  { s with events := s.events ++ [SysEvent.paste] }

/-- Embedding of `RephraseService.replace_selected_text`
(rephrase_service.py, lines 56-114): save the current clipboard, copy the
new text to the clipboard, read it back to verify, simulate ctrl+v, and
then — only `if current_clipboard:` is truthy, i.e. non-empty — write the
saved content back.  Returns `True` and the final state. -/
def replace_selected_text (new_text : String) (s : SysState) : Bool × SysState :=
  let r1 := xclipReadClipboard s
  let current_clipboard := r1.1
  let s2 := xclipWriteClipboard new_text r1.2
  let r2 := xclipReadClipboard s2
  let s3 := xdotoolPaste r2.2
  let s4 := if current_clipboard = "" then s3 else xclipWriteClipboard current_clipboard s3
  (true, s4)

/-- The system prompt fixed by `RephraseService.__init__`. -/
def rephrase_system_prompt : String :=
  "Please correct any grammatical errors and make improvements to the writing " ++
  "while keeping the original tone and meaning. If you cannot rephrase it, " ++
  "or change is not needed, return <null>. Return only the improved text " ++
  "without any explanations or additional commentary."

/-- Result of one handler invocation: how many times the model endpoint
was called, and the resulting desktop state. -/
structure TrigResult where
  modelCalls : Nat
  state : SysState
deriving DecidableEq

/-- Embedding of `RephraseService.process_trigger` (rephrase_service.py,
lines 116-150).  `selected_text` is what `get_selected_text` returned
(`None` or a string); `resp` is the oracle for the single chat request a
`send_to_ollama` call would make.  Python's `if not x:` treats both `None`
and the empty string as falsy. -/
def process_trigger (selected_text : Option String) (resp : HTTPOutcome)
    (s : SysState) : TrigResult :=
  match selected_text with
  | none => ⟨0, s⟩
  | some text =>
    if text = "" then ⟨0, s⟩
    else
      match send_to_ollama rephrase_system_prompt ("text to rephrase: " ++ text) resp with
      | none => ⟨1, s⟩
      | some rephrased_text =>
        if rephrased_text = "" then ⟨1, s⟩
        else if pyStrip rephrased_text = "<null>" then ⟨1, s⟩
        else ⟨1, (replace_selected_text rephrased_text s).2⟩

/-- Embedding of `SummaryService.process_trigger` (example_service.py,
lines 55-85): acquire input, and if it is falsy return without calling the
model; otherwise call the model once and only log the outcome (no desktop
side effects in any case).  Returns the number of model calls. -/
def summary_process_trigger (input_text : Option String) (resp : HTTPOutcome) : Nat :=
  match input_text with
  | none => 0
  | some text => if text = "" then 0 else 1

/-- C1: on a key press the key is recorded in the pressed-key set, and a
handler thread is dispatched if and only if, in the updated set, at least
one ctrl-class key and at least one alt-class key are held and the pressed
key is a character key whose character equals the decimal string of the
configured trigger number; any other digit, or a chord missing either
modifier class, never dispatches. -/
theorem trigger_dispatch_iff_chord (pressed_keys : Finset PKey) (keynum : Int) (key : PKey) :
    (on_press pressed_keys keynum key).1 = insert key pressed_keys ∧
    ((on_press pressed_keys keynum key).2 = true ↔
      ((PKey.ctrl_l ∈ insert key pressed_keys ∨ PKey.ctrl_r ∈ insert key pressed_keys) ∧
       (PKey.alt_l ∈ insert key pressed_keys ∨ PKey.alt_r ∈ insert key pressed_keys) ∧
       ∃ c, key = PKey.charKey (some c) ∧ String.mk [c] = toString keynum)) :=
  ⟨on_press_fst pressed_keys keynum key, on_press_dispatch_iff pressed_keys keynum key⟩

/-- C8: releasing a key removes it from the pressed-key set, leaves every
other key's membership unchanged, and releasing a key that is not held
leaves the set exactly as it was. -/
theorem release_removes_key (pressed_keys : Finset PKey) (key : PKey) :
    key ∉ on_release pressed_keys key ∧
    (∀ k, k ≠ key → (k ∈ on_release pressed_keys key ↔ k ∈ pressed_keys)) ∧
    (key ∉ pressed_keys → on_release pressed_keys key = pressed_keys) := by
  refine ⟨Finset.not_mem_erase key pressed_keys, ?_, ?_⟩
  · intro k hk
    simp [on_release, Finset.mem_erase, hk]
  · intro h
    exact Finset.erase_eq_of_not_mem h

/-- Witness for C8: releasing alt_l while only ctrl_l is held leaves the
set unchanged. -/
theorem release_removes_key_witness :
    on_release {PKey.ctrl_l} PKey.alt_l = {PKey.ctrl_l} :=
  (release_removes_key {PKey.ctrl_l} PKey.alt_l).2.2 (by decide)

/-- C10: if the configured trigger number's decimal string is longer than
one character (e.g. 10), no key press ever dispatches a handler, because a
single character key can never equal a multi-character string. -/
theorem multidigit_keynum_never_triggers (pressed_keys : Finset PKey) (keynum : Int)
    (key : PKey) (h : 1 < (toString keynum).length) :
    (on_press pressed_keys keynum key).2 = false := by
  cases hb : (on_press pressed_keys keynum key).2 with
  | false => rfl
  | true =>
    obtain ⟨-, -, c, -, hc⟩ := (on_press_dispatch_iff pressed_keys keynum key).1 hb
    have hlen : (toString keynum).length = 1 := by
      rw [← hc]
      rfl
    rw [hlen] at h
    exact absurd h (lt_irrefl 1)

/-- Witness for C10: with keynum 10, pressing '1' while ctrl_l and alt_l
are held dispatches nothing. -/
theorem multidigit_keynum_never_triggers_witness :
    1 < (toString (10 : Int)).length ∧
    (on_press {PKey.ctrl_l, PKey.alt_l} 10 (PKey.charKey (some '1'))).2 = false :=
  ⟨by decide,
   multidigit_keynum_never_triggers {PKey.ctrl_l, PKey.alt_l} 10
     (PKey.charKey (some '1')) (by decide)⟩

/-- C2 (amended): a replacement reads and saves the clipboard, writes the
model result, verifies it, simulates exactly one paste, and then restores
the saved content only when it was non-empty; when the original clipboard
was empty the restore step is skipped and the clipboard is left holding
the model result. -/
theorem replace_restores_nonempty_clipboard (s : SysState) (t : String) :
    ((replace_selected_text t s).2).events =
      s.events ++ [SysEvent.readClip s.clipboard, SysEvent.writeClip t,
        SysEvent.readClip t, SysEvent.paste] ++
      (if s.clipboard = "" then [] else [SysEvent.writeClip s.clipboard]) ∧
    ((replace_selected_text t s).2).clipboard =
      (if s.clipboard = "" then t else s.clipboard) ∧
    (replace_selected_text t s).1 = true := by
  by_cases h : s.clipboard = "" <;>
    simp [replace_selected_text, xclipReadClipboard, xclipWriteClipboard,
      xdotoolPaste, h, List.append_assoc]

/-- Counterexample to C2 as stated: with an empty original clipboard and a
successful rephrase of "helo wrold" into "hello world", the operation ends
with the clipboard holding "hello world", not its original (empty)
content. -/
theorem empty_clipboard_not_restored :
    (process_trigger (some "helo wrold") (HTTPOutcome.response 200 (some "hello world"))
        ⟨"", []⟩).state.clipboard = "hello world" ∧
    ¬ (process_trigger (some "helo wrold") (HTTPOutcome.response 200 (some "hello world"))
        ⟨"", []⟩).state.clipboard = "" := by
  decide

/-- C3 (amended): generate returns the error variant on transport error,
on a key-missing body, and on any 4xx/5xx status (in particular HTTP 500,
on which the handler performs no clipboard write); on a response whose
status is below 400 with a well-formed body it returns the stripped
content.  (A 1xx/3xx status is not converted to an error, because
`raise_for_status` only raises for 400-599.) -/
theorem generate_error_handling (sp ui : String) (status : Nat)
    (content : Option String) (c t : String) (s : SysState) :
    send_to_ollama sp ui HTTPOutcome.transportError = none ∧
    send_to_ollama sp ui (HTTPOutcome.response status none) = none ∧
    (400 ≤ status ∧ status ≤ 599 →
      send_to_ollama sp ui (HTTPOutcome.response status content) = none) ∧
    (status < 400 →
      send_to_ollama sp ui (HTTPOutcome.response status (some c)) = some (pyStrip c)) ∧
    send_to_ollama sp ui (HTTPOutcome.response 500 (some c)) = none ∧
    (process_trigger (some t) (HTTPOutcome.response 500 content) s).state = s := by
  refine ⟨rfl, ?_, ?_, ?_, ?_, ?_⟩
  · simp [send_to_ollama]
  · intro h
    simp [send_to_ollama, h]
  · intro h
    have hcond : ¬ (400 ≤ status ∧ status ≤ 599) := by omega
    simp [send_to_ollama, hcond]
  · norm_num [send_to_ollama]
  · by_cases ht : t = ""
    · simp [process_trigger, ht]
    · cases content with
      | none => norm_num [process_trigger, send_to_ollama, ht]
      | some c2 => norm_num [process_trigger, send_to_ollama, ht]

/-- Witness for C3: HTTP 500 yields the error variant; HTTP 200 with a
well-formed body yields the stripped content. -/
theorem generate_error_handling_witness :
    send_to_ollama "" "" (HTTPOutcome.response 500 (some "oops")) = none ∧
    send_to_ollama "" "" (HTTPOutcome.response 200 (some " hi ")) = some (pyStrip " hi ") :=
  ⟨(generate_error_handling "" "" 500 (some "oops") "x" "t" ⟨"", []⟩).2.2.1 (by decide),
   (generate_error_handling "" "" 200 (some " hi ") " hi " "t" ⟨"", []⟩).2.2.2.1 (by decide)⟩

/-- Counterexample to C3 as stated: HTTP 300 is not a 2xx status, yet with
a well-formed body generate returns the content, not the error variant. -/
theorem generate_redirect_counterexample :
    ¬ (200 ≤ 300 ∧ 300 < 300) ∧
    send_to_ollama "" "" (HTTPOutcome.response 300 (some "hello")) = some "hello" := by
  decide

/-- C4: when input acquisition yields no text (`None` or the empty
string), both the rephrase handler and the summary handler return without
calling the model, and the rephrase handler leaves the desktop state
untouched. -/
theorem no_input_no_model_call (selected_text : Option String) (resp : HTTPOutcome)
    (s : SysState) (h : selected_text = none ∨ selected_text = some "") :
    (process_trigger selected_text resp s).modelCalls = 0 ∧
    (process_trigger selected_text resp s).state = s ∧
    summary_process_trigger selected_text resp = 0 := by
  rcases h with h | h <;> subst h <;> simp [process_trigger, summary_process_trigger]

/-- Witness for C4: no selection, transport-error oracle. -/
theorem no_input_no_model_call_witness :
    (process_trigger none HTTPOutcome.transportError ⟨"c", []⟩).modelCalls = 0 ∧
    (process_trigger none HTTPOutcome.transportError ⟨"c", []⟩).state = ⟨"c", []⟩ ∧
    summary_process_trigger none HTTPOutcome.transportError = 0 :=
  no_input_no_model_call none HTTPOutcome.transportError ⟨"c", []⟩ (Or.inl rfl)

/-- C5: when the model call succeeds and the returned text strips to the
sentinel "<null>", the handler returns after the single model call with no
clipboard write, no paste, and the desktop state unchanged. -/
theorem sentinel_no_replacement (t r : String) (resp : HTTPOutcome) (s : SysState)
    (ht : ¬ t = "")
    (hr : send_to_ollama rephrase_system_prompt ("text to rephrase: " ++ t) resp = some r)
    (hs : pyStrip r = "<null>") :
    (process_trigger (some t) resp s).state = s ∧
    (process_trigger (some t) resp s).modelCalls = 1 := by
  have hr0 : ¬ r = "" := by
    intro h
    rw [h] at hs
    exact absurd hs (by decide)
  simp [process_trigger, ht, hr, hr0, hs]

/-- Witness for C5: the model answers " <null> ", which strips to the
sentinel; the state (clipboard "orig", empty trace) is unchanged. -/
theorem sentinel_no_replacement_witness :
    (process_trigger (some "hi") (HTTPOutcome.response 200 (some " <null> "))
      ⟨"orig", []⟩).state = ⟨"orig", []⟩ ∧
    (process_trigger (some "hi") (HTTPOutcome.response 200 (some " <null> "))
      ⟨"orig", []⟩).modelCalls = 1 :=
  sentinel_no_replacement "hi" "<null>" (HTTPOutcome.response 200 (some " <null> "))
    ⟨"orig", []⟩ (by decide) (by decide) (by decide)

/-- C9: a 2xx response whose content strips to the empty string makes
generate return the empty string, and the handler then takes exactly the
same path as a failed model call: one model call, no replacement, desktop
state unchanged — indistinguishable from a transport error at the service
level. -/
theorem empty_model_response_treated_as_failure (sp ui c t : String) (s : SysState)
    (hc : pyStrip c = "") (ht : ¬ t = "") :
    send_to_ollama sp ui (HTTPOutcome.response 200 (some c)) = some "" ∧
    process_trigger (some t) (HTTPOutcome.response 200 (some c)) s =
      process_trigger (some t) HTTPOutcome.transportError s ∧
    (process_trigger (some t) (HTTPOutcome.response 200 (some c)) s).state = s := by
  have hsend : send_to_ollama rephrase_system_prompt ("text to rephrase: " ++ t)
      (HTTPOutcome.response 200 (some c)) = some "" := by
    norm_num [send_to_ollama, hc]
  refine ⟨?_, ?_, ?_⟩
  · norm_num [send_to_ollama, hc]
  · norm_num [process_trigger, ht, send_to_ollama, hc]
  · norm_num [process_trigger, ht, hsend]

/-- Witness for C9: content "  " strips to empty; the handler behaves as
on a transport error. -/
theorem empty_model_response_treated_as_failure_witness :
    send_to_ollama "" "" (HTTPOutcome.response 200 (some "  ")) = some "" ∧
    process_trigger (some "x") (HTTPOutcome.response 200 (some "  ")) ⟨"c", []⟩ =
      process_trigger (some "x") HTTPOutcome.transportError ⟨"c", []⟩ ∧
    (process_trigger (some "x") (HTTPOutcome.response 200 (some "  ")) ⟨"c", []⟩).state =
      ⟨"c", []⟩ :=
  empty_model_response_treated_as_failure "" "" "  " "x" ⟨"c", []⟩ (by decide) (by decide)

/-- Oracle for one invocation of the startup sequence.  Each field is the
outcome the environment would give to the corresponding request, in
program order: `tags1` is the first health-check GET of `/api/tags`
(`none` = `RequestException`); `systemctlOk` is whether
`systemctl --user start ollama` succeeds; `tags2` is the verification GET
after the start attempt; `tagsModels` is the model-listing GET (`none` =
`RequestException`, `some none` = undecodable body, `some (some names)` =
the listed model names); `pullResp` is the `/api/pull` POST status;
`chatResp` is the warm-up `/api/chat` POST status. -/
structure OllamaEnv where
  tags1 : Option Nat
  systemctlOk : Bool
  tags2 : Option Nat
  tagsModels : Option (Option (List String))
  pullResp : Option Nat
  chatResp : Option Nat
deriving DecidableEq

/-- How many HTTP requests each startup operation issued during one
invocation of `ensure_ollama_running`: the step-1 health check, the step-2
model listing, the model pull, and the step-3 warm-up chat. -/
structure ReqCount where
  health : Nat
  modelList : Nat
  pull : Nat
  warmup : Nat
deriving DecidableEq

/-- Step 3 of `ensure_ollama_running` (base_service.py, lines 101-122):
one warm-up POST to `/api/chat`; success exactly on status 200. -/
def warmup_step (env : OllamaEnv) (c : ReqCount) : Bool × ReqCount :=
  match env.chatResp with
  | none => (false, { c with warmup := c.warmup + 1 })
  | some status =>
    if status = 200 then (true, { c with warmup := c.warmup + 1 })
    else (false, { c with warmup := c.warmup + 1 })

/-- Python's `name.split(':')[0]`: the prefix of the string up to the
first colon (the whole string when there is none).  Defined over the
character list so that it reduces in the kernel. -/
def split_colon_head (n : String) : String :=
  String.mk (n.data.takeWhile (fun ch => ¬ ch = ':'))

/-- Step 2 of `ensure_ollama_running` (base_service.py, lines 69-99): GET
`/api/tags` (no status check), extract the model names (each truncated at
the first colon); if the configured model is absent, POST `/api/pull` and
require status 200; any exception yields failure. -/
def model_check_step (model : String) (env : OllamaEnv) (c : ReqCount) :
    Bool × ReqCount :=
  match env.tagsModels with
  | none => (false, { c with modelList := c.modelList + 1 })
  | some none => (false, { c with modelList := c.modelList + 1 })
  | some (some names) =>
    if model ∈ names.map split_colon_head then
      warmup_step env { c with modelList := c.modelList + 1 }
    else
      match env.pullResp with
      | none =>
        (false, { c with modelList := c.modelList + 1, pull := c.pull + 1 })
      | some status =>
        if status = 200 then
          warmup_step env { c with modelList := c.modelList + 1, pull := c.pull + 1 }
        else
          (false, { c with modelList := c.modelList + 1, pull := c.pull + 1 })

/-- Embedding of `BaseAIService.ensure_ollama_running` (base_service.py,
lines 41-122).  Step 1: GET `/api/tags` with status check; on a
`RequestException` the code runs `systemctl --user start ollama` and, if
that succeeds, issues the health-check GET a second time before moving
on.  Steps 2 and 3 as above.  Returns success and the per-operation
request counts. -/
def ensure_ollama_running (model : String) (env : OllamaEnv) : Bool × ReqCount :=
  match env.tags1 with
  | some status =>
    if status = 200 then model_check_step model env ⟨1, 0, 0, 0⟩
    else (false, ⟨1, 0, 0, 0⟩)
  | none =>
    if env.systemctlOk then
      match env.tags2 with
      | none => (false, ⟨2, 0, 0, 0⟩)
      | some status2 =>
        if status2 = 200 then model_check_step model env ⟨2, 0, 0, 0⟩
        else (false, ⟨2, 0, 0, 0⟩)
    else (false, ⟨1, 0, 0, 0⟩)

/-- The warm-up step issues exactly one chat request. -/
lemma warmup_step_snd (env : OllamaEnv) (c : ReqCount) :
    (warmup_step env c).2 = { c with warmup := c.warmup + 1 } := by
  unfold warmup_step
  rcases env with ⟨t1, sc, t2, tm, pr, ch⟩
  cases ch with
  | none => rfl
  | some status => by_cases h : status = 200 <;> simp [h]

/-- The model-check step issues exactly one listing request, at most one
pull and at most one warm-up request, and no health-check request. -/
lemma model_check_step_snd (model : String) (env : OllamaEnv) (c : ReqCount) :
    (model_check_step model env c).2.health = c.health ∧
    (model_check_step model env c).2.modelList = c.modelList + 1 ∧
    (model_check_step model env c).2.pull ≤ c.pull + 1 ∧
    (model_check_step model env c).2.warmup ≤ c.warmup + 1 := by
  unfold model_check_step
  rcases henv : env.tagsModels with _ | tm2
  · simp
  · rcases tm2 with _ | names
    · simp
    · dsimp only
      split_ifs with hmem
      · simp [warmup_step_snd]
      · rcases hpr : env.pullResp with _ | status
        · simp
        · by_cases h : status = 200 <;> simp [h, warmup_step_snd]

/-- Outcome of `BaseAIService.run` (base_service.py, lines 220-252):
`sys.exit(1)` when the startup checks fail, an exception re-raised from a
failed keyboard-listener start, or a running listener loop. -/
inductive RunOutcome where
  | startupExit (code : Nat)
  | listenerRaised
  | running
deriving DecidableEq

/-- Embedding of `BaseAIService.run`: the startup checks are executed
first; only when they succeed is the keyboard listener started
(`listenerOk` tells whether `Listener.start` succeeds).  Returns the
outcome and whether the listener was ever started. -/
def run (model : String) (env : OllamaEnv) (listenerOk : Bool) : RunOutcome × Bool :=
  if (ensure_ollama_running model env).1 then
    if listenerOk then (RunOutcome.running, true)
    else (RunOutcome.listenerRaised, false)
  else (RunOutcome.startupExit 1, false)

/-- Embedding of `main` in rephrase_service.py (lines 153-163): a
`SystemExit` from `run` passes through (exit 1); an exception from the
listener is caught and converted to `sys.exit(1)`; otherwise the service
runs until interrupted and the process ends with exit code 0.  Returns
the process exit code and whether the listener was started. -/
def rephrase_main (model : String) (env : OllamaEnv) (listenerOk : Bool) :
    Nat × Bool :=
  match run model env listenerOk with
  | (RunOutcome.startupExit code, started) => (code, started)
  | (RunOutcome.listenerRaised, started) => (1, started)
  | (RunOutcome.running, started) => (0, started)

/-- C6 (amended): in one invocation of the startup sequence, the model
listing, the pull and the warm-up each issue their request at most once,
and no failure of theirs is re-attempted; the health check issues its
request at most twice, and it reaches two requests only on the remediation
path — the first GET hit a transport error and the code started the ollama
service and issued the verification GET. -/
theorem startup_requests_single_shot_with_health_retry (model : String) (env : OllamaEnv) :
    (ensure_ollama_running model env).2.health ≤ 2 ∧
    (ensure_ollama_running model env).2.modelList ≤ 1 ∧
    (ensure_ollama_running model env).2.pull ≤ 1 ∧
    (ensure_ollama_running model env).2.warmup ≤ 1 ∧
    ((ensure_ollama_running model env).2.health = 2 →
      env.tags1 = none ∧ env.systemctlOk = true) := by
  have hm1 := model_check_step_snd model env ⟨1, 0, 0, 0⟩
  have hm2 := model_check_step_snd model env ⟨2, 0, 0, 0⟩
  have h1h : (model_check_step model env ⟨1, 0, 0, 0⟩).2.health = 1 := hm1.1
  have h1l : (model_check_step model env ⟨1, 0, 0, 0⟩).2.modelList = 1 := hm1.2.1
  have h1p : (model_check_step model env ⟨1, 0, 0, 0⟩).2.pull ≤ 1 := hm1.2.2.1
  have h1w : (model_check_step model env ⟨1, 0, 0, 0⟩).2.warmup ≤ 1 := hm1.2.2.2
  have h2h : (model_check_step model env ⟨2, 0, 0, 0⟩).2.health = 2 := hm2.1
  have h2l : (model_check_step model env ⟨2, 0, 0, 0⟩).2.modelList = 1 := hm2.2.1
  have h2p : (model_check_step model env ⟨2, 0, 0, 0⟩).2.pull ≤ 1 := hm2.2.2.1
  have h2w : (model_check_step model env ⟨2, 0, 0, 0⟩).2.warmup ≤ 1 := hm2.2.2.2
  unfold ensure_ollama_running
  rcases h1 : env.tags1 with _ | s1
  · rcases h2 : env.systemctlOk
    · simp
    · rcases h3 : env.tags2 with _ | s2
      · simp
      · by_cases h4 : s2 = 200
        · dsimp only
          rw [if_pos rfl, if_pos h4]
          exact ⟨by omega, by omega, h2p, h2w, fun _ => ⟨rfl, rfl⟩⟩
        · dsimp only
          rw [if_pos rfl, if_neg h4]
          exact ⟨by decide, by decide, by decide, by decide, fun _ => ⟨rfl, rfl⟩⟩
  · dsimp only
    by_cases h4 : s1 = 200
    · rw [if_pos h4]
      exact ⟨by omega, by omega, h1p, h1w,
        fun h => absurd (h1h.symm.trans h) (by decide)⟩
    · rw [if_neg h4]
      exact ⟨by decide, by decide, by decide, by decide,
        fun h => absurd h (by decide)⟩

/-- Witness for C6: when the health check is issued twice, the invocation
indeed went through the transport-error-then-restart path. -/
theorem startup_requests_single_shot_witness :
    OllamaEnv.tags1 ⟨none, true, some 200, some (some ["gemma3"]), none, some 200⟩ = none ∧
    OllamaEnv.systemctlOk ⟨none, true, some 200, some (some ["gemma3"]), none, some 200⟩ = true :=
  (startup_requests_single_shot_with_health_retry "gemma3"
    ⟨none, true, some 200, some (some ["gemma3"]), none, some 200⟩).2.2.2.2 (by decide)

/-- Counterexample to C6 as stated: a single successful startup invocation
in which the health-check request was issued twice (first GET raised a
transport error, the service was started, and the GET was re-issued). -/
theorem health_check_retried_counterexample :
    (ensure_ollama_running "gemma3"
      ⟨none, true, some 200, some (some ["gemma3"]), none, some 200⟩).1 = true ∧
    (ensure_ollama_running "gemma3"
      ⟨none, true, some 200, some (some ["gemma3"]), none, some 200⟩).2.health = 2 := by
  decide

/-- C7: the keyboard listener is started only if the health check, the
model-availability check and the warm-up all succeeded; if the startup
checks fail the process exits with code 1 and the listener is never
started; if the listener itself fails to initialize the process also
exits with code 1. -/
theorem startup_gates_listener (model : String) (env : OllamaEnv) (listenerOk : Bool) :
    ((rephrase_main model env listenerOk).2 = true →
      (ensure_ollama_running model env).1 = true) ∧
    ((ensure_ollama_running model env).1 = false →
      rephrase_main model env listenerOk = (1, false)) ∧
    ((ensure_ollama_running model env).1 = true → listenerOk = false →
      rephrase_main model env listenerOk = (1, false)) := by
  cases listenerOk <;>
    by_cases h : (ensure_ollama_running model env).1 = true <;>
      simp_all [rephrase_main, run]

/-- Witness for C7: a startup whose first health check answers HTTP 500
exits with code 1 without starting the listener. -/
theorem startup_gates_listener_witness :
    rephrase_main "gemma3" ⟨some 500, false, none, none, none, none⟩ true = (1, false) :=
  (startup_gates_listener "gemma3" ⟨some 500, false, none, none, none, none⟩ true).2.1
    (by decide)

end KeybindLLM
